import Mathlib

/-!
# Verification of the OSSM StrokeEngine pattern library

A shallow embedding of `Software/lib/StrokeEngine/src/pattern.h` (the stroke
pattern engine) in Lean 4, together with proofs about the claims of the
specification.

Modelling conventions:
* C++ `float`/`double` arithmetic is idealised as exact rational arithmetic (`ℚ`).
* C++ `int` values are modelled as `ℤ`; a float-to-int conversion truncates
  toward zero (`ratToInt`); C++ integer division truncates toward zero
  (`Int.tdiv`).
* `millis()` is modelled by passing the current time `now : ℤ` explicitly to
  the operations that poll the delay timer.
* Each pattern class becomes a pure function from its tunables (and, where the
  class has mutable members that influence the result, an explicit state) to
  the returned `motionParameter` (and successor state).
-/

/-- Truncation toward zero, the semantics of a C++ float-to-int conversion. -/
def ratToInt (q : ℚ) : ℤ := if q < 0 then ⌈q⌉ else ⌊q⌋

/-- The Arduino `constrain` macro on integers:
`((amt)<(low)?(low):((amt)>(high)?(high):(amt)))`. -/
def constrainI (x lo hi : ℤ) : ℤ := if x < lo then lo else if x > hi then hi else x

/-- The Arduino `constrain` macro on floating point values, idealised over `ℚ`. -/
def constrainQ (x lo hi : ℚ) : ℚ := if x < lo then lo else if x > hi then hi else x

/-- Modelled from the spec: the Range-Mapping Primitive `fscale` of
`PatternMath.h`, which is not under `src/`.  Per the spec it clamps `value`
into `[inMin, inMax]`, normalises to `[0,1]` and linearly interpolates into
`[outMin, outMax]` (`outMin` may exceed `outMax` to express inversion); every
call site of this engine passes neutral curvature, i.e. exponent 1, so the
function is plain linear interpolation. -/
def fscale (inMin inMax outMin outMax value : ℚ) : ℚ :=
  outMin + (constrainQ value inMin inMax - inMin) / (inMax - inMin) * (outMax - outMin)

/-- The Arduino `map(x, in_min, in_max, out_min, out_max)` function on `long`:
`(x - in_min) * (out_max - out_min) / (in_max - in_min) + out_min` with C++
truncating integer division. -/
def arduinoMap (x inMin inMax outMin outMax : ℤ) : ℤ :=
  Int.tdiv ((x - inMin) * (outMax - outMin)) (inMax - inMin) + outMin

/-- `motionParameter`: the command returned to the executor each tick
(`pattern.h`, lines 33-40). -/
structure motionParameter where
  stroke : ℤ
  speed : ℤ
  acceleration : ℤ
  skip : Bool
deriving DecidableEq, Repr

/-- The tunables and limits stored by the `Pattern` base class:
`_stroke`, `_depth`, `_speed`, `_sensation`, `_maxSpeed`, `_maxAcceleration`. -/
structure Tunables where
  stroke : ℤ
  depth : ℤ
  speed : ℤ
  sensation : ℚ
  maxSpeed : ℤ
  maxAcceleration : ℤ
deriving DecidableEq, Repr

namespace Pattern

/-- `Pattern::setSpeed`. -/
def setSpeed (t : Tunables) (v : ℤ) : Tunables := { t with speed := v }

/-- `Pattern::setStroke`. -/
def setStroke (t : Tunables) (s : ℤ) : Tunables := { t with stroke := s }

/-- `Pattern::setDepth`. -/
def setDepth (t : Tunables) (d : ℤ) : Tunables := { t with depth := d }

/-- `Pattern::setSensation`. -/
def setSensation (t : Tunables) (s : ℚ) : Tunables := { t with sensation := s }

/-- `Pattern::_isStillDelayed`: true while `millis() > start + delay` fails. -/
def isStillDelayed (now start delay : ℤ) : Bool := !(now > start + delay)

/-- `Pattern::_calRangeOfStroke`: `min(abs(_depth), abs(_stroke))`. -/
def calRangeOfStroke (t : Tunables) : ℤ := min |t.depth| |t.stroke|

/-- The divisor `constrain(_speed, 1, _maxSpeed)` used by `_calTimeOfStroke`
(and by the factor-of-2 overrides in `TeasingPounding` and `HalfnHalf`). -/
def strokeDivisor (t : Tunables) : ℤ := constrainI t.speed 1 t.maxSpeed

/-- `Pattern::_calTimeOfStroke`: `_calRangeOfStroke() / constrain(_speed, 1, _maxSpeed)`. -/
def calTimeOfStroke (t : Tunables) : ℚ := (calRangeOfStroke t : ℚ) / (strokeDivisor t : ℚ)

/-- `Pattern::_setIdleState`: speed `int(0.05 * _maxSpeed)`, acceleration
`int(0.5 * _maxAcceleration)`, stroke `constrain(_depth - _stroke, 0, _depth)`,
skip `false`. -/
def setIdleState (t : Tunables) : motionParameter :=
  { stroke := constrainI (t.depth - t.stroke) 0 t.depth
    speed := ratToInt ((1 / 20 : ℚ) * t.maxSpeed)
    acceleration := ratToInt ((1 / 2 : ℚ) * t.maxAcceleration)
    skip := false }

end Pattern

namespace SimplePenetration

/-- `SimplePenetration::_setIdleState`: as the base class but with stroke `0`. -/
def setIdleState (t : Tunables) : motionParameter :=
  { stroke := 0
    speed := ratToInt ((1 / 20 : ℚ) * t.maxSpeed)
    acceleration := ratToInt ((1 / 2 : ℚ) * t.maxAcceleration)
    skip := false }

/-- `SimplePenetration::nextTarget`. -/
def nextTarget (t : Tunables) (index : ℕ) : motionParameter :=
  if t.speed = 0 then setIdleState t
  else
    let timeOfStroke := Pattern.calTimeOfStroke t
    let speed := ratToInt (constrainQ ((3 / 2 : ℚ) * t.speed) 0 t.maxSpeed)
    let acceleration := ratToInt (constrainQ (3 * (speed : ℚ) / timeOfStroke) 0 t.maxAcceleration)
    { stroke := if index % 2 = 1 then t.depth else 0
      speed := speed
      acceleration := acceleration
      skip := false }

end SimplePenetration

namespace TeasingPounding

/-- `TeasingPounding::_calTimeOfStroke`:
`2.0 * _calRangeOfStroke() / constrain(_speed, 1, _maxSpeed)`. -/
def calTimeOfStroke (t : Tunables) : ℚ :=
  2 * (Pattern.calRangeOfStroke t : ℚ) / (Pattern.strokeDivisor t : ℚ)

/-- The `_timeOfFastStroke` computation of `TeasingPounding::_updateStrokeTiming`:
`(0.5 * _timeOfStroke) / fscale(0.0, 100.0, 1.0, 5.0, abs(_sensation), 0.0)`. -/
def timeOfFastStroke (timeOfStroke sensation : ℚ) : ℚ :=
  (1 / 2 * timeOfStroke) / fscale 0 100 1 5 |sensation|

/-- `TeasingPounding::_updateStrokeTiming`, returning
`(_timeOfInStroke, _timeOfOutStroke)`: positive sensation makes the in-stroke
the faster one, otherwise the out-stroke is the faster one. -/
def updateStrokeTiming (timeOfStroke sensation : ℚ) : ℚ × ℚ :=
  let fast := timeOfFastStroke timeOfStroke sensation
  if sensation > 0 then (fast, timeOfStroke - fast) else (timeOfStroke - fast, fast)

/-- `TeasingPounding::nextTarget`. -/
def nextTarget (t : Tunables) (index : ℕ) : motionParameter :=
  if t.speed = 0 then Pattern.setIdleState t
  else
    let timeOfStroke := calTimeOfStroke t
    let timing := updateStrokeTiming timeOfStroke t.sensation
    if index % 2 = 1 then
      let speed := constrainI (ratToInt ((3 / 2 : ℚ) * t.stroke / timing.2)) 0 t.maxSpeed
      { stroke := constrainI (t.depth - t.stroke) 0 t.depth
        speed := speed
        acceleration := ratToInt (constrainQ (3 * (speed : ℚ) / timing.2) 0 t.maxAcceleration)
        skip := false }
    else
      let speed := constrainI (ratToInt ((3 / 2 : ℚ) * t.stroke / timing.1)) 0 t.maxSpeed
      { stroke := t.depth
        speed := speed
        acceleration := ratToInt (constrainQ (3 * (speed : ℚ) / timing.1) 0 t.maxAcceleration)
        skip := false }

end TeasingPounding

namespace RoboStroke

/-- The `_x` update of `RoboStroke::nextTarget`: scale sensation into the range
`[0.05, 0.5]` where `0` gives `1/3`. -/
def nextX (sensation : ℚ) : ℚ :=
  if 0 ≤ sensation then fscale 0 100 (1 / 3) (1 / 2) sensation
  else fscale 0 100 (1 / 3) (1 / 20) (-sensation)

/-- The unclamped cruise velocity of `RoboStroke::nextTarget`: `_speed / (1 - _x)`. -/
def cruiseRaw (speed x : ℚ) : ℚ := speed / (1 - x)

/-- The unclamped acceleration of `RoboStroke::nextTarget`: `_speed / _x`. -/
def accelRaw (speed x : ℚ) : ℚ := speed / x

/-- `RoboStroke::nextTarget`.  The class member `_x` is explicit state: the
emitted command is computed from the current `_x`, and only afterwards is `_x`
recomputed from the current sensation (returned as the second component). -/
def nextTarget (t : Tunables) (x : ℚ) (index : ℕ) : motionParameter × ℚ :=
  if t.speed = 0 then (Pattern.setIdleState t, x)
  else
    ({ stroke := if index % 2 = 1 then constrainI (t.depth - t.stroke) 0 t.depth else t.depth
       speed := constrainI (ratToInt (cruiseRaw t.speed x)) 0 t.maxSpeed
       acceleration := constrainI (ratToInt (accelRaw t.speed x)) 0 t.maxAcceleration
       skip := false }, nextX t.sensation)

end RoboStroke

namespace HalfnHalf

/-- `HalfnHalf::_calTimeOfStroke`:
`2.0 * _calRangeOfStroke() / constrain(_speed, 1, _maxSpeed)`. -/
def calTimeOfStroke (t : Tunables) : ℚ :=
  2 * (Pattern.calRangeOfStroke t : ℚ) / (Pattern.strokeDivisor t : ℚ)

/-- `HalfnHalf::_updateStrokeTiming`, textually identical to
`TeasingPounding::_updateStrokeTiming`. -/
def updateStrokeTiming (timeOfStroke sensation : ℚ) : ℚ × ℚ :=
  let fast := (1 / 2 * timeOfStroke) / fscale 0 100 1 5 |sensation|
  if sensation > 0 then (fast, timeOfStroke - fast) else (timeOfStroke - fast, fast)

/-- `HalfnHalf::nextTarget`.  The class member `_half` is explicit state,
returned updated as the second component. -/
def nextTarget (t : Tunables) (half : Bool) (index : ℕ) : motionParameter × Bool :=
  if t.speed = 0 then (Pattern.setIdleState t, half)
  else
    let timeOfStroke := calTimeOfStroke t
    let timing := updateStrokeTiming timeOfStroke t.sensation
    let h := if index = 0 then true else half
    let strokeLen := if h then Int.tdiv t.stroke 2 else t.stroke
    if index % 2 = 1 then
      let speed := constrainI (ratToInt ((3 / 2 : ℚ) * t.stroke / timing.2)) 0 t.maxSpeed
      ({ stroke := constrainI (t.depth - t.stroke) 0 t.depth
         speed := speed
         acceleration := constrainI (ratToInt (3 * (speed : ℚ) / timing.2)) 0 t.maxAcceleration
         skip := false }, !h)
    else
      let speed := constrainI (ratToInt ((3 / 2 : ℚ) * t.stroke / timing.1)) 0 t.maxSpeed
      ({ stroke := constrainI (t.depth - t.stroke + strokeLen) 0 t.depth
         speed := speed
         acceleration := constrainI (ratToInt (3 * (speed : ℚ) / timing.1)) 0 t.maxAcceleration
         skip := false }, h)

end HalfnHalf

namespace Deeper

/-- The `_countStrokesForRamp` computation of `Deeper::nextTarget`:
`map(_sensation, -100, 0, 2, 11)` for negative sensation, else
`map(_sensation, 0, 100, 11, 32)` (the float sensation is truncated toward
zero by the conversion to `long`). -/
def countStrokesForRamp (sensation : ℚ) : ℤ :=
  if sensation < 0 then arduinoMap (ratToInt sensation) (-100) 0 2 11
  else arduinoMap (ratToInt sensation) 0 100 11 32

/-- The cycling index of `Deeper::nextTarget`:
`(index / 2) % _countStrokesForRamp + 1`.  The C++ `%` works in 32-bit
unsigned arithmetic; for every ramp length `≥ 1` (every ramp the engine
produces for in-range sensation) the value below agrees with it. -/
def cycleIndex (index : ℕ) (ramp : ℤ) : ℤ := ((index / 2) % ramp.toNat : ℕ) + 1

/-- `Deeper::nextTarget`. -/
def nextTarget (t : Tunables) (index : ℕ) : motionParameter :=
  if t.speed = 0 then Pattern.setIdleState t
  else
    let timeOfStroke := Pattern.calTimeOfStroke t
    let ramp := countStrokesForRamp t.sensation
    let slope := Int.tdiv t.stroke ramp
    let amplitude := slope * cycleIndex index ramp
    let speed := constrainI (ratToInt ((3 / 2 : ℚ) * amplitude / timeOfStroke)) 0 t.maxSpeed
    { stroke := if index % 2 = 1 then constrainI (t.depth - t.stroke) 0 t.depth
                else constrainI (t.depth - t.stroke + amplitude) 0 t.depth
      speed := speed
      acceleration := constrainI (ratToInt (3 * (speed : ℚ) / timeOfStroke)) 0 t.maxAcceleration
      skip := false }

end Deeper

/-- The mutable members of `StopNGo` that influence its behaviour: the series
counters, the delay timer of the `Pattern` base class, and the persistent
`_nextMove` command (whose stale `stroke` field is returned during a pause). -/
structure StopNGoState where
  strokeSeriesIndex : ℤ
  strokeIndex : ℤ
  countStrokesUp : Bool
  startDelayMillis : ℤ
  delayInMillis : ℤ
  nextMove : motionParameter
deriving DecidableEq, Repr

namespace StopNGo

/-- The member initialisers of `StopNGo` (and of the `Pattern` base class). -/
def initialState : StopNGoState :=
  { strokeSeriesIndex := 1
    strokeIndex := 0
    countStrokesUp := true
    startDelayMillis := 0
    delayInMillis := 0
    nextMove := { stroke := 0, speed := 0, acceleration := 0, skip := false } }

/-- `StopNGo::_numberOfStrokes`. -/
def numberOfStrokes : ℤ := 5

/-- The delay stored by `StopNGo::setSensation`:
`map(sensation, -100, 100, 100, 10000)` (the float sensation is truncated
toward zero by the conversion to `long`). -/
def delayOfSensation (sensation : ℚ) : ℤ :=
  arduinoMap (ratToInt sensation) (-100) 100 100 10000

/-- `StopNGo::setSensation`: stores the sensation and immediately recomputes
the inter-series delay via `_updateDelay`. -/
def setSensation (t : Tunables) (st : StopNGoState) (sensation : ℚ) :
    Tunables × StopNGoState :=
  ({ t with sensation := sensation }, { st with delayInMillis := delayOfSensation sensation })

/-- `StopNGo::nextTarget` at time `now` (the value `millis()` would return). -/
def nextTarget (t : Tunables) (st : StopNGoState) (now : ℤ) (index : ℕ) :
    motionParameter × StopNGoState :=
  if t.speed = 0 then
    (Pattern.setIdleState t, { st with nextMove := Pattern.setIdleState t })
  else
    let timeOfStroke := Pattern.calTimeOfStroke t
    let speed := constrainI (ratToInt ((3 / 2 : ℚ) * t.speed)) 0 t.maxSpeed
    let accel := constrainI (ratToInt (3 * (speed : ℚ) / timeOfStroke)) 0 t.maxAcceleration
    if Pattern.isStillDelayed now st.startDelayMillis st.delayInMillis then
      let cmd : motionParameter :=
        { stroke := st.nextMove.stroke, speed := speed, acceleration := accel, skip := true }
      (cmd, { st with nextMove := cmd })
    else if index % 2 = 1 then
      let cmd : motionParameter :=
        { stroke := constrainI (t.depth - t.stroke) 0 t.depth
          speed := speed, acceleration := accel, skip := false }
      if st.strokeIndex ≥ st.strokeSeriesIndex then
        let up1 := if st.strokeSeriesIndex ≥ numberOfStrokes then false else st.countStrokesUp
        let up2 := if st.strokeSeriesIndex ≤ 1 then true else up1
        let newSeries := if up2 then st.strokeSeriesIndex + 1 else st.strokeSeriesIndex - 1
        (cmd, { st with strokeIndex := 0, countStrokesUp := up2,
                        strokeSeriesIndex := newSeries,
                        startDelayMillis := now, nextMove := cmd })
      else
        (cmd, { st with nextMove := cmd })
    else
      let cmd : motionParameter :=
        { stroke := t.depth, speed := speed, acceleration := accel, skip := false }
      (cmd, { st with strokeIndex := st.strokeIndex + 1, nextMove := cmd })

end StopNGo

namespace Insist

/-- The `_strokeFraction` computation of `Insist::_updateRealStroke`:
`(100 - abs(_sensation)) / 100.0`. -/
def strokeFraction (sensation : ℚ) : ℚ := (100 - |sensation|) / 100

/-- The `_strokeInFront` computation of `Insist::_updateRealStroke`:
`(_sensation > 0) ? true : false`. -/
def strokeInFront (sensation : ℚ) : Bool := sensation > 0

/-- The `_realStroke` computation of `Insist::_updateRealStroke`:
`int((float)_stroke * _strokeFraction)`. -/
def realStroke (stroke : ℤ) (sensation : ℚ) : ℤ :=
  ratToInt ((stroke : ℚ) * strokeFraction sensation)

/-- `Insist::_setIdleState`: as the base class, except that the retraction
target reflects the currently reduced stroke when `_strokeInFront` holds. -/
def setIdleState (t : Tunables) : motionParameter :=
  { stroke := if strokeInFront t.sensation then
                constrainI (t.depth - realStroke t.stroke t.sensation) 0 t.depth
              else constrainI (t.depth - t.stroke) 0 t.depth
    speed := ratToInt ((1 / 20 : ℚ) * t.maxSpeed)
    acceleration := ratToInt ((1 / 2 : ℚ) * t.maxAcceleration)
    skip := false }

/-- `Insist::nextTarget`. -/
def nextTarget (t : Tunables) (index : ℕ) : motionParameter :=
  if t.speed = 0 then setIdleState t
  else
    let timeOfStroke := Pattern.calTimeOfStroke t
    let speed := constrainI (ratToInt ((3 / 2 : ℚ) * t.speed)) 0 t.maxSpeed
    let accel := constrainI
      (ratToInt (3 * (speed : ℚ) / (timeOfStroke * strokeFraction t.sensation)))
      0 t.maxAcceleration
    { stroke := if strokeInFront t.sensation then
                  (if index % 2 = 1 then
                     constrainI (t.depth - realStroke t.stroke t.sensation) 0 t.depth
                   else t.depth)
                else
                  (if index % 2 = 1 then constrainI (t.depth - t.stroke) 0 t.depth
                   else constrainI (t.depth - t.stroke + realStroke t.stroke t.sensation) 0 t.depth)
      speed := speed
      acceleration := accel
      skip := false }

end Insist

/-- The invariant of the spec, stated per command: speed within
`[0, maxVelocity]`, acceleration within `[0, maxAcceleration]`, and for every
freshly computed command (`skip = false`) the target within
`[0, depthLimitSteps]`. -/
def cmdWithinLimits (t : Tunables) (m : motionParameter) : Prop :=
  0 ≤ m.speed ∧ m.speed ≤ t.maxSpeed ∧
  0 ≤ m.acceleration ∧ m.acceleration ≤ t.maxAcceleration ∧
  (m.skip = false → 0 ≤ m.stroke ∧ m.stroke ≤ t.depth)

/-! ## Basic lemmas about the numeric conventions -/

lemma constrainI_mem {lo hi : ℤ} (x : ℤ) (h : lo ≤ hi) :
    lo ≤ constrainI x lo hi ∧ constrainI x lo hi ≤ hi := by
  unfold constrainI; split_ifs <;> omega

lemma constrainQ_mem {lo hi : ℚ} (x : ℚ) (h : lo ≤ hi) :
    lo ≤ constrainQ x lo hi ∧ constrainQ x lo hi ≤ hi := by
  unfold constrainQ; split_ifs with h1 h2 <;> constructor <;> linarith

lemma ratToInt_intCast (n : ℤ) : ratToInt (n : ℚ) = n := by
  unfold ratToInt; split_ifs <;> simp

lemma ratToInt_mono {p q : ℚ} (h : p ≤ q) : ratToInt p ≤ ratToInt q := by
  unfold ratToInt
  split_ifs with hp hq hq'
  · exact Int.ceil_le_ceil h
  · have h1 : ⌈p⌉ ≤ ⌈(0 : ℚ)⌉ := Int.ceil_le_ceil (le_of_lt hp)
    have h2 : 0 ≤ ⌊q⌋ := Int.floor_nonneg.mpr (not_lt.mp hq)
    simp only [Int.ceil_zero] at h1
    omega
  · exact absurd hq' (not_lt.mpr ((not_lt.mp hp).trans h))
  · exact Int.floor_le_floor h

lemma ratToInt_mem {q : ℚ} {n : ℤ} (h0 : 0 ≤ q) (h1 : q ≤ (n : ℚ)) :
    0 ≤ ratToInt q ∧ ratToInt q ≤ n := by
  constructor
  · have h := ratToInt_mono h0
    rwa [show ratToInt 0 = 0 from by unfold ratToInt; simp] at h
  · have h := ratToInt_mono h1
    rwa [ratToInt_intCast] at h

/-- `int()` of an Arduino-constrained float lies within the integer bounds. -/
lemma ratToInt_constrainQ_mem {hi : ℤ} (x : ℚ) (h : 0 ≤ hi) :
    0 ≤ ratToInt (constrainQ x 0 hi) ∧ ratToInt (constrainQ x 0 hi) ≤ hi := by
  have h' : (0 : ℚ) ≤ (hi : ℚ) := by exact_mod_cast h
  exact ratToInt_mem (constrainQ_mem x h').1 (constrainQ_mem x h').2

/-- The speed field of an idle command lies within `[0, maxSpeed]`, and the
acceleration field within `[0, maxAcceleration]`. -/
lemma idle_speed_mem {m : ℤ} (h : 0 ≤ m) :
    0 ≤ ratToInt ((1 / 20 : ℚ) * m) ∧ ratToInt ((1 / 20 : ℚ) * m) ≤ m := by
  have h' : (0 : ℚ) ≤ (m : ℚ) := by exact_mod_cast h
  exact ratToInt_mem (by linarith) (by linarith)

lemma idle_accel_mem {m : ℤ} (h : 0 ≤ m) :
    0 ≤ ratToInt ((1 / 2 : ℚ) * m) ∧ ratToInt ((1 / 2 : ℚ) * m) ≤ m := by
  have h' : (0 : ℚ) ≤ (m : ℚ) := by exact_mod_cast h
  exact ratToInt_mem (by linarith) (by linarith)

lemma SimplePenetration_within {t : Tunables} (idx : ℕ) (hd : 0 ≤ t.depth)
    (hs : 0 ≤ t.maxSpeed) (ha : 0 ≤ t.maxAcceleration) :
    cmdWithinLimits t (SimplePenetration.nextTarget t idx) := by
  unfold SimplePenetration.nextTarget
  split_ifs with h0 h1
  · exact ⟨(idle_speed_mem hs).1, (idle_speed_mem hs).2, (idle_accel_mem ha).1,
      (idle_accel_mem ha).2, fun _ => ⟨le_refl 0, hd⟩⟩
  · exact ⟨(ratToInt_constrainQ_mem _ hs).1, (ratToInt_constrainQ_mem _ hs).2,
      (ratToInt_constrainQ_mem _ ha).1, (ratToInt_constrainQ_mem _ ha).2,
      fun _ => ⟨hd, le_refl _⟩⟩
  · exact ⟨(ratToInt_constrainQ_mem _ hs).1, (ratToInt_constrainQ_mem _ hs).2,
      (ratToInt_constrainQ_mem _ ha).1, (ratToInt_constrainQ_mem _ ha).2,
      fun _ => ⟨le_refl 0, hd⟩⟩

lemma TeasingPounding_within {t : Tunables} (idx : ℕ) (hd : 0 ≤ t.depth)
    (hs : 0 ≤ t.maxSpeed) (ha : 0 ≤ t.maxAcceleration) :
    cmdWithinLimits t (TeasingPounding.nextTarget t idx) := by
  unfold TeasingPounding.nextTarget
  split_ifs
  all_goals
    first
      | exact ⟨(idle_speed_mem hs).1, (idle_speed_mem hs).2, (idle_accel_mem ha).1,
          (idle_accel_mem ha).2, fun _ => constrainI_mem _ hd⟩
      | exact ⟨(constrainI_mem _ hs).1, (constrainI_mem _ hs).2,
          (ratToInt_constrainQ_mem _ ha).1, (ratToInt_constrainQ_mem _ ha).2,
          fun _ => constrainI_mem _ hd⟩
      | exact ⟨(constrainI_mem _ hs).1, (constrainI_mem _ hs).2,
          (ratToInt_constrainQ_mem _ ha).1, (ratToInt_constrainQ_mem _ ha).2,
          fun _ => ⟨hd, le_refl _⟩⟩

lemma RoboStroke_within {t : Tunables} (x : ℚ) (idx : ℕ) (hd : 0 ≤ t.depth)
    (hs : 0 ≤ t.maxSpeed) (ha : 0 ≤ t.maxAcceleration) :
    cmdWithinLimits t (RoboStroke.nextTarget t x idx).1 := by
  unfold RoboStroke.nextTarget
  split_ifs
  all_goals
    first
      | exact ⟨(idle_speed_mem hs).1, (idle_speed_mem hs).2, (idle_accel_mem ha).1,
          (idle_accel_mem ha).2, fun _ => constrainI_mem _ hd⟩
      | exact ⟨(constrainI_mem _ hs).1, (constrainI_mem _ hs).2,
          (constrainI_mem _ ha).1, (constrainI_mem _ ha).2,
          fun _ => constrainI_mem _ hd⟩
      | exact ⟨(constrainI_mem _ hs).1, (constrainI_mem _ hs).2,
          (constrainI_mem _ ha).1, (constrainI_mem _ ha).2,
          fun _ => ⟨hd, le_refl _⟩⟩

lemma HalfnHalf_within {t : Tunables} (half : Bool) (idx : ℕ) (hd : 0 ≤ t.depth)
    (hs : 0 ≤ t.maxSpeed) (ha : 0 ≤ t.maxAcceleration) :
    cmdWithinLimits t (HalfnHalf.nextTarget t half idx).1 := by
  unfold HalfnHalf.nextTarget
  split_ifs
  all_goals
    first
      | exact ⟨(idle_speed_mem hs).1, (idle_speed_mem hs).2, (idle_accel_mem ha).1,
          (idle_accel_mem ha).2, fun _ => constrainI_mem _ hd⟩
      | exact ⟨(constrainI_mem _ hs).1, (constrainI_mem _ hs).2,
          (constrainI_mem _ ha).1, (constrainI_mem _ ha).2,
          fun _ => constrainI_mem _ hd⟩

lemma Deeper_within {t : Tunables} (idx : ℕ) (hd : 0 ≤ t.depth)
    (hs : 0 ≤ t.maxSpeed) (ha : 0 ≤ t.maxAcceleration) :
    cmdWithinLimits t (Deeper.nextTarget t idx) := by
  unfold Deeper.nextTarget
  split_ifs
  all_goals
    first
      | exact ⟨(idle_speed_mem hs).1, (idle_speed_mem hs).2, (idle_accel_mem ha).1,
          (idle_accel_mem ha).2, fun _ => constrainI_mem _ hd⟩
      | exact ⟨(constrainI_mem _ hs).1, (constrainI_mem _ hs).2,
          (constrainI_mem _ ha).1, (constrainI_mem _ ha).2,
          fun _ => constrainI_mem _ hd⟩

lemma StopNGo_within {t : Tunables} (st : StopNGoState) (now : ℤ) (idx : ℕ)
    (hd : 0 ≤ t.depth) (hs : 0 ≤ t.maxSpeed) (ha : 0 ≤ t.maxAcceleration) :
    cmdWithinLimits t (StopNGo.nextTarget t st now idx).1 := by
  unfold StopNGo.nextTarget
  split_ifs
  all_goals
    first
      | exact ⟨(idle_speed_mem hs).1, (idle_speed_mem hs).2, (idle_accel_mem ha).1,
          (idle_accel_mem ha).2, fun _ => constrainI_mem _ hd⟩
      | exact ⟨(constrainI_mem _ hs).1, (constrainI_mem _ hs).2,
          (constrainI_mem _ ha).1, (constrainI_mem _ ha).2,
          fun _ => constrainI_mem _ hd⟩
      | exact ⟨(constrainI_mem _ hs).1, (constrainI_mem _ hs).2,
          (constrainI_mem _ ha).1, (constrainI_mem _ ha).2,
          fun _ => ⟨hd, le_refl _⟩⟩
      | exact ⟨(constrainI_mem _ hs).1, (constrainI_mem _ hs).2,
          (constrainI_mem _ ha).1, (constrainI_mem _ ha).2, fun h => nomatch h⟩

lemma Insist_within {t : Tunables} (idx : ℕ) (hd : 0 ≤ t.depth)
    (hs : 0 ≤ t.maxSpeed) (ha : 0 ≤ t.maxAcceleration) :
    cmdWithinLimits t (Insist.nextTarget t idx) := by
  unfold Insist.nextTarget Insist.setIdleState
  split_ifs
  all_goals
    first
      | exact ⟨(idle_speed_mem hs).1, (idle_speed_mem hs).2, (idle_accel_mem ha).1,
          (idle_accel_mem ha).2, fun _ => constrainI_mem _ hd⟩
      | exact ⟨(constrainI_mem _ hs).1, (constrainI_mem _ hs).2,
          (constrainI_mem _ ha).1, (constrainI_mem _ ha).2,
          fun _ => constrainI_mem _ hd⟩
      | exact ⟨(constrainI_mem _ hs).1, (constrainI_mem _ hs).2,
          (constrainI_mem _ ha).1, (constrainI_mem _ ha).2,
          fun _ => ⟨hd, le_refl _⟩⟩

/-! ## C2: the idle fallback at speedParameter = 0 -/

/-- C2 fails as stated: `SimplePenetration` overrides `_setIdleState` so that
at `speedParameter = 0` its target position is `0`, not
`clamp(depthLimitSteps - strokeLengthSteps, 0, depthLimitSteps)`.  Concretely,
with stroke 30 and depth 100 the claim demands target 70, but the code
returns 0. -/
theorem C2_counterexample :
    (SimplePenetration.nextTarget ⟨30, 100, 0, 0, 1000, 1000⟩ 0).stroke = 0 ∧
    constrainI (100 - 30) 0 100 = 70 ∧ (0 : ℤ) ≠ 70 := by
  decide

/-- C2 (amended): whenever `speedParameter = 0`, every variant returns its own
idle-fallback command — speed = `int(5% of maxVelocity)`, acceleration =
`int(50% of maxAcceleration)`, skip = false — regardless of index or prior
internal state.  The target position is
`clamp(depthLimitSteps - strokeLengthSteps, 0, depthLimitSteps)` for
`TeasingPounding`, `RoboStroke`, `HalfnHalf`, `Deeper` and `StopNGo`; it is
`0` for `SimplePenetration`; and for `Insist` it reflects the currently
reduced stroke when sensation is positive:
`clamp(depthLimitSteps - realStroke, 0, depthLimitSteps)`, else
`clamp(depthLimitSteps - strokeLengthSteps, 0, depthLimitSteps)`. -/
theorem C2_idle_fallback (t : Tunables) (x : ℚ) (half : Bool) (st : StopNGoState)
    (now : ℤ) (idx : ℕ) (h : t.speed = 0) :
    (SimplePenetration.nextTarget t idx =
      { stroke := 0
        speed := ratToInt ((1 / 20 : ℚ) * t.maxSpeed)
        acceleration := ratToInt ((1 / 2 : ℚ) * t.maxAcceleration)
        skip := false }) ∧
    (TeasingPounding.nextTarget t idx =
      { stroke := constrainI (t.depth - t.stroke) 0 t.depth
        speed := ratToInt ((1 / 20 : ℚ) * t.maxSpeed)
        acceleration := ratToInt ((1 / 2 : ℚ) * t.maxAcceleration)
        skip := false }) ∧
    ((RoboStroke.nextTarget t x idx).1 =
      { stroke := constrainI (t.depth - t.stroke) 0 t.depth
        speed := ratToInt ((1 / 20 : ℚ) * t.maxSpeed)
        acceleration := ratToInt ((1 / 2 : ℚ) * t.maxAcceleration)
        skip := false }) ∧
    ((HalfnHalf.nextTarget t half idx).1 =
      { stroke := constrainI (t.depth - t.stroke) 0 t.depth
        speed := ratToInt ((1 / 20 : ℚ) * t.maxSpeed)
        acceleration := ratToInt ((1 / 2 : ℚ) * t.maxAcceleration)
        skip := false }) ∧
    (Deeper.nextTarget t idx =
      { stroke := constrainI (t.depth - t.stroke) 0 t.depth
        speed := ratToInt ((1 / 20 : ℚ) * t.maxSpeed)
        acceleration := ratToInt ((1 / 2 : ℚ) * t.maxAcceleration)
        skip := false }) ∧
    ((StopNGo.nextTarget t st now idx).1 =
      { stroke := constrainI (t.depth - t.stroke) 0 t.depth
        speed := ratToInt ((1 / 20 : ℚ) * t.maxSpeed)
        acceleration := ratToInt ((1 / 2 : ℚ) * t.maxAcceleration)
        skip := false }) ∧
    (Insist.nextTarget t idx =
      { stroke := if Insist.strokeInFront t.sensation then
            constrainI (t.depth - Insist.realStroke t.stroke t.sensation) 0 t.depth
          else constrainI (t.depth - t.stroke) 0 t.depth
        speed := ratToInt ((1 / 20 : ℚ) * t.maxSpeed)
        acceleration := ratToInt ((1 / 2 : ℚ) * t.maxAcceleration)
        skip := false }) := by
  refine ⟨?_, ?_, ?_, ?_, ?_, ?_, ?_⟩ <;>
    simp [SimplePenetration.nextTarget, SimplePenetration.setIdleState,
      TeasingPounding.nextTarget, RoboStroke.nextTarget, HalfnHalf.nextTarget,
      Deeper.nextTarget, StopNGo.nextTarget, Insist.nextTarget,
      Insist.setIdleState, Pattern.setIdleState, h]

/-- Witness for C2 (amended) at a concrete input with `speedParameter = 0`. -/
theorem C2_idle_fallback_witness :
    (let t : Tunables := ⟨30, 100, 0, 50, 1000, 1000⟩
     (SimplePenetration.nextTarget t 5 =
       { stroke := 0
         speed := ratToInt ((1 / 20 : ℚ) * t.maxSpeed)
         acceleration := ratToInt ((1 / 2 : ℚ) * t.maxAcceleration)
         skip := false }) ∧
     (TeasingPounding.nextTarget t 5 =
       { stroke := constrainI (t.depth - t.stroke) 0 t.depth
         speed := ratToInt ((1 / 20 : ℚ) * t.maxSpeed)
         acceleration := ratToInt ((1 / 2 : ℚ) * t.maxAcceleration)
         skip := false }) ∧
     ((RoboStroke.nextTarget t (1 / 3) 5).1 =
       { stroke := constrainI (t.depth - t.stroke) 0 t.depth
         speed := ratToInt ((1 / 20 : ℚ) * t.maxSpeed)
         acceleration := ratToInt ((1 / 2 : ℚ) * t.maxAcceleration)
         skip := false }) ∧
     ((HalfnHalf.nextTarget t true 5).1 =
       { stroke := constrainI (t.depth - t.stroke) 0 t.depth
         speed := ratToInt ((1 / 20 : ℚ) * t.maxSpeed)
         acceleration := ratToInt ((1 / 2 : ℚ) * t.maxAcceleration)
         skip := false }) ∧
     (Deeper.nextTarget t 5 =
       { stroke := constrainI (t.depth - t.stroke) 0 t.depth
         speed := ratToInt ((1 / 20 : ℚ) * t.maxSpeed)
         acceleration := ratToInt ((1 / 2 : ℚ) * t.maxAcceleration)
         skip := false }) ∧
     ((StopNGo.nextTarget t StopNGo.initialState 0 5).1 =
       { stroke := constrainI (t.depth - t.stroke) 0 t.depth
         speed := ratToInt ((1 / 20 : ℚ) * t.maxSpeed)
         acceleration := ratToInt ((1 / 2 : ℚ) * t.maxAcceleration)
         skip := false }) ∧
     (Insist.nextTarget t 5 =
       { stroke := if Insist.strokeInFront t.sensation then
             constrainI (t.depth - Insist.realStroke t.stroke t.sensation) 0 t.depth
           else constrainI (t.depth - t.stroke) 0 t.depth
         speed := ratToInt ((1 / 20 : ℚ) * t.maxSpeed)
         acceleration := ratToInt ((1 / 2 : ℚ) * t.maxAcceleration)
         skip := false })) :=
  C2_idle_fallback ⟨30, 100, 0, 50, 1000, 1000⟩ (1 / 3) true StopNGo.initialState 0 5 rfl

/-! ## C3: the StopNGo inter-series delay -/

/-- C3 fails as stated: `setSensation` maps sensation through
`map(sensation, -100, 100, 100, 10000)`, so the stored delay is 100 ms at
sensation = -100 (the claim demands 10000 ms there) and 10000 ms at
sensation = 100; the map is increasing, not decreasing. -/
theorem C3_counterexample :
    StopNGo.delayOfSensation (-100) = 100 ∧ (100 : ℤ) ≠ 10000 ∧
    StopNGo.delayOfSensation (-100) < StopNGo.delayOfSensation 100 := by
  decide

/-- C3 (amended): for `StopNGo`, after `setSensation(s)` with `s` in
`[-100, 100]`, the stored inter-series pause duration is a monotonically
non-decreasing linear function of `s`, equal to 100 ms at `s = -100` and
10000 ms at `s = 100`. -/
theorem C3_delay_of_sensation (s1 s2 : ℚ) (h1 : -100 ≤ s1) (h12 : s1 ≤ s2) :
    StopNGo.delayOfSensation s1 ≤ StopNGo.delayOfSensation s2 ∧
    StopNGo.delayOfSensation (-100) = 100 ∧
    StopNGo.delayOfSensation 100 = 10000 := by
  refine ⟨?_, by decide, by decide⟩
  have hx1 : (-100 : ℤ) ≤ ratToInt s1 := by
    have h := ratToInt_mono (p := (-100 : ℚ)) h1
    rwa [show ratToInt (-100 : ℚ) = -100 from by decide] at h
  have hx12 : ratToInt s1 ≤ ratToInt s2 := ratToInt_mono h12
  unfold StopNGo.delayOfSensation arduinoMap
  have e1 : 0 ≤ (ratToInt s1 - -100) * (10000 - 100) := by nlinarith
  have e2 : (ratToInt s1 - -100) * (10000 - 100) ≤ (ratToInt s2 - -100) * (10000 - 100) := by
    nlinarith
  have e3 : 0 ≤ (ratToInt s2 - -100) * (10000 - 100) := le_trans e1 e2
  rw [Int.tdiv_eq_ediv e1 (by norm_num), Int.tdiv_eq_ediv e3 (by norm_num)]
  have h := Int.ediv_le_ediv (c := (100 : ℤ) - -100) (by norm_num) e2
  omega

/-- Witness for C3 (amended) at concrete inputs `s1 = 0`, `s2 = 50`. -/
theorem C3_delay_of_sensation_witness :
    StopNGo.delayOfSensation 0 ≤ StopNGo.delayOfSensation 50 ∧
    StopNGo.delayOfSensation (-100) = 100 ∧
    StopNGo.delayOfSensation 100 = 10000 :=
  C3_delay_of_sensation 0 50 (by norm_num) (by norm_num)

/-! ## C4: the RoboStroke split fraction -/

/-- C4 fails as stated: at sensation 0 the split fraction is exactly `1/3`,
but the unclamped acceleration `speedParameter / x` then equals
`3 · speedParameter = 2 · cruiseVelocity`, not `3 · cruiseVelocity`
(with `cruiseVelocity = speedParameter / (1 - x)`); at `speedParameter = 1`
the acceleration is 3 while `3 · cruiseVelocity = 9/2`. -/
theorem C4_counterexample :
    RoboStroke.nextX 0 = 1 / 3 ∧
    RoboStroke.accelRaw 1 (RoboStroke.nextX 0) = 3 ∧
    3 * RoboStroke.cruiseRaw 1 (RoboStroke.nextX 0) = 9 / 2 ∧
    RoboStroke.accelRaw 1 (RoboStroke.nextX 0) ≠
      3 * RoboStroke.cruiseRaw 1 (RoboStroke.nextX 0) := by
  norm_num [RoboStroke.nextX, RoboStroke.accelRaw, RoboStroke.cruiseRaw, fscale, constrainQ]

/-- C4 (amended): for `RoboStroke`, sensation 0 gives the split fraction
`x = 1/3` exactly, and the unclamped command then satisfies
`acceleration = 3 · speedParameter = 2 · cruiseVelocity` (with
`cruiseVelocity = speedParameter/(1-x)` and `acceleration = speedParameter/x`,
before clamping against the limits); sensation 100 gives `x = 0.5` and
sensation -100 gives `x = 0.05`. -/
theorem C4_split_fraction :
    RoboStroke.nextX 0 = 1 / 3 ∧ RoboStroke.nextX 100 = 1 / 2 ∧
    RoboStroke.nextX (-100) = 1 / 20 ∧
    ∀ sp : ℚ, RoboStroke.accelRaw sp (RoboStroke.nextX 0) = 3 * sp ∧
      RoboStroke.accelRaw sp (RoboStroke.nextX 0) =
        2 * RoboStroke.cruiseRaw sp (RoboStroke.nextX 0) := by
  have h0 : RoboStroke.nextX 0 = 1 / 3 := by
    norm_num [RoboStroke.nextX, fscale, constrainQ]
  refine ⟨h0, ?_, ?_, fun sp => ⟨?_, ?_⟩⟩
  · norm_num [RoboStroke.nextX, fscale, constrainQ]
  · norm_num [RoboStroke.nextX, fscale, constrainQ]
  · rw [h0]; unfold RoboStroke.accelRaw; ring
  · rw [h0]; unfold RoboStroke.accelRaw RoboStroke.cruiseRaw; ring

/-! ## C5: setters take effect on the very next nextTarget call -/

/-- C5 fails as stated: `RoboStroke::nextTarget` computes the emitted speed
and acceleration from the member `_x` and only afterwards recomputes `_x`
from the current sensation, so the first call after `setSensation` still uses
the split fraction of the previous sensation.  Concretely: with speed 100 and
limits 1000/10000, the first call after `setSensation(100)` from the state
whose split fraction is `1/3` (the value it has when the sensation was 0 all
along) emits acceleration 300, while a state that had sensation 100 all along
(split fraction `nextX 100 = 1/2`) emits acceleration 200. -/
theorem C5_counterexample :
    (let t := Pattern.setSensation ⟨1000, 1000, 100, 0, 1000, 10000⟩ 100
     (RoboStroke.nextTarget t (1 / 3) 2).1.acceleration = 300 ∧
     (RoboStroke.nextTarget t (RoboStroke.nextX 100) 2).1.acceleration = 200 ∧
     (300 : ℤ) ≠ 200) := by
  refine ⟨?_, ?_, by decide⟩ <;>
    norm_num [RoboStroke.nextTarget, RoboStroke.nextX, RoboStroke.accelRaw,
      RoboStroke.cruiseRaw, Pattern.setSensation, fscale, constrainQ, constrainI, ratToInt]

/-- C5 (amended): a sensation value stored by `setSensation` is fully
reflected in the very next `nextTarget` call for every variant except
`RoboStroke`: the previous sensation has no influence on the next output
(for `StopNGo` the setter also rewrites the derived delay, so the previous
sensation's delay is likewise gone).  For `RoboStroke` the target position
and skip flag reflect the new sensation immediately, but the emitted speed
and acceleration still use the split fraction cached from the previous
sensation; from the second call on (with the speed nonzero so the waveform
path runs) the output is as if the new sensation had been set all along. -/
theorem C5_setters_next_tick (t : Tunables) (s0 s : ℚ) (x : ℚ) (half : Bool)
    (st : StopNGoState) (now : ℤ) (idx idx2 : ℕ) :
    (SimplePenetration.nextTarget (Pattern.setSensation (Pattern.setSensation t s0) s) idx =
      SimplePenetration.nextTarget (Pattern.setSensation t s) idx) ∧
    (TeasingPounding.nextTarget (Pattern.setSensation (Pattern.setSensation t s0) s) idx =
      TeasingPounding.nextTarget (Pattern.setSensation t s) idx) ∧
    (Deeper.nextTarget (Pattern.setSensation (Pattern.setSensation t s0) s) idx =
      Deeper.nextTarget (Pattern.setSensation t s) idx) ∧
    (Insist.nextTarget (Pattern.setSensation (Pattern.setSensation t s0) s) idx =
      Insist.nextTarget (Pattern.setSensation t s) idx) ∧
    (HalfnHalf.nextTarget (Pattern.setSensation (Pattern.setSensation t s0) s) half idx =
      HalfnHalf.nextTarget (Pattern.setSensation t s) half idx) ∧
    (let a := StopNGo.setSensation t st s0
     let b := StopNGo.setSensation a.1 a.2 s
     let c := StopNGo.setSensation t st s
     StopNGo.nextTarget b.1 b.2 now idx = StopNGo.nextTarget c.1 c.2 now idx) ∧
    ((RoboStroke.nextTarget (Pattern.setSensation t s) x idx).1.stroke =
      (RoboStroke.nextTarget (Pattern.setSensation t s) (RoboStroke.nextX s) idx).1.stroke) ∧
    ((RoboStroke.nextTarget (Pattern.setSensation t s) x idx).1.skip =
      (RoboStroke.nextTarget (Pattern.setSensation t s) (RoboStroke.nextX s) idx).1.skip) ∧
    (t.speed ≠ 0 →
      (RoboStroke.nextTarget (Pattern.setSensation t s)
          ((RoboStroke.nextTarget (Pattern.setSensation t s) x idx).2) idx2).1 =
        (RoboStroke.nextTarget (Pattern.setSensation t s) (RoboStroke.nextX s) idx2).1) := by
  refine ⟨rfl, rfl, rfl, rfl, rfl, rfl, ?_, ?_, ?_⟩
  · unfold RoboStroke.nextTarget; split_ifs <;> rfl
  · unfold RoboStroke.nextTarget; split_ifs <;> rfl
  · intro h
    unfold RoboStroke.nextTarget Pattern.setSensation
    simp [h]

/-- Witness for C5 (amended): the second call after `setSensation(100)`
agrees with the all-along state, at a concrete input with nonzero speed. -/
theorem C5_setters_next_tick_witness :
    (RoboStroke.nextTarget (Pattern.setSensation ⟨1000, 1000, 100, 0, 1000, 10000⟩ 100)
        ((RoboStroke.nextTarget (Pattern.setSensation ⟨1000, 1000, 100, 0, 1000, 10000⟩ 100)
          (1 / 3) 2).2) 3).1 =
      (RoboStroke.nextTarget (Pattern.setSensation ⟨1000, 1000, 100, 0, 1000, 10000⟩ 100)
        (RoboStroke.nextX 100) 3).1 :=
  (C5_setters_next_tick ⟨1000, 1000, 100, 0, 1000, 10000⟩ 0 100 (1 / 3) true
      StopNGo.initialState 0 2 3).2.2.2.2.2.2.2.2 (by decide)

/-! ## C6: the asymmetric stroke-timing split preserves the total time -/

lemma updateStrokeTiming_sum (timeOfStroke sensation : ℚ) :
    (TeasingPounding.updateStrokeTiming timeOfStroke sensation).1 +
      (TeasingPounding.updateStrokeTiming timeOfStroke sensation).2 = timeOfStroke := by
  unfold TeasingPounding.updateStrokeTiming
  split_ifs <;> dsimp only <;> ring

lemma updateStrokeTiming_neutral (timeOfStroke : ℚ) :
    (TeasingPounding.updateStrokeTiming timeOfStroke 0).1 =
      (TeasingPounding.updateStrokeTiming timeOfStroke 0).2 := by
  unfold TeasingPounding.updateStrokeTiming TeasingPounding.timeOfFastStroke
  norm_num [fscale, constrainQ]
  ring

/-- C6: for `TeasingPounding` and `HalfnHalf`, after `_updateStrokeTiming`
(fed with the doubled time of `_calTimeOfStroke`),
`timeOfInStroke + timeOfOutStroke = timeOfStroke` for every sensation in
`[-100, 100]`; and at sensation 0 the two half-stroke times are equal. -/
theorem C6_stroke_timing (t : Tunables) (h1 : -100 ≤ t.sensation) (h2 : t.sensation ≤ 100) :
    ((TeasingPounding.updateStrokeTiming (TeasingPounding.calTimeOfStroke t) t.sensation).1 +
        (TeasingPounding.updateStrokeTiming (TeasingPounding.calTimeOfStroke t) t.sensation).2 =
      TeasingPounding.calTimeOfStroke t) ∧
    ((HalfnHalf.updateStrokeTiming (HalfnHalf.calTimeOfStroke t) t.sensation).1 +
        (HalfnHalf.updateStrokeTiming (HalfnHalf.calTimeOfStroke t) t.sensation).2 =
      HalfnHalf.calTimeOfStroke t) ∧
    (t.sensation = 0 →
      (TeasingPounding.updateStrokeTiming (TeasingPounding.calTimeOfStroke t) t.sensation).1 =
          (TeasingPounding.updateStrokeTiming (TeasingPounding.calTimeOfStroke t) t.sensation).2 ∧
        (HalfnHalf.updateStrokeTiming (HalfnHalf.calTimeOfStroke t) t.sensation).1 =
          (HalfnHalf.updateStrokeTiming (HalfnHalf.calTimeOfStroke t) t.sensation).2) := by
  have hsame : ∀ T s, HalfnHalf.updateStrokeTiming T s =
      TeasingPounding.updateStrokeTiming T s := by
    intro T s
    unfold HalfnHalf.updateStrokeTiming TeasingPounding.updateStrokeTiming
      TeasingPounding.timeOfFastStroke
    rfl
  refine ⟨updateStrokeTiming_sum _ _, ?_, fun h0 => ⟨?_, ?_⟩⟩
  · rw [hsame]; exact updateStrokeTiming_sum _ _
  · rw [h0]; exact updateStrokeTiming_neutral _
  · rw [h0, hsame]; exact updateStrokeTiming_neutral _

/-- Witness for C6 at a concrete input with sensation 0. -/
theorem C6_stroke_timing_witness :
    (let t : Tunables := ⟨200, 1000, 100, 0, 1000, 10000⟩
     ((TeasingPounding.updateStrokeTiming (TeasingPounding.calTimeOfStroke t) t.sensation).1 +
         (TeasingPounding.updateStrokeTiming (TeasingPounding.calTimeOfStroke t) t.sensation).2 =
       TeasingPounding.calTimeOfStroke t) ∧
     ((HalfnHalf.updateStrokeTiming (HalfnHalf.calTimeOfStroke t) t.sensation).1 +
         (HalfnHalf.updateStrokeTiming (HalfnHalf.calTimeOfStroke t) t.sensation).2 =
       HalfnHalf.calTimeOfStroke t) ∧
     (t.sensation = 0 →
       (TeasingPounding.updateStrokeTiming (TeasingPounding.calTimeOfStroke t) t.sensation).1 =
           (TeasingPounding.updateStrokeTiming (TeasingPounding.calTimeOfStroke t) t.sensation).2 ∧
         (HalfnHalf.updateStrokeTiming (HalfnHalf.calTimeOfStroke t) t.sensation).1 =
           (HalfnHalf.updateStrokeTiming (HalfnHalf.calTimeOfStroke t) t.sensation).2)) :=
  C6_stroke_timing ⟨200, 1000, 100, 0, 1000, 10000⟩ (by norm_num) (by norm_num)

/-! ## C10: the HalfnHalf half/full flag only influences the target position -/

/-- C10: for `HalfnHalf` with `speedParameter > 0`, two runs differing only in
the half/full flag emit commands differing at most in the target position:
the cruise velocity, acceleration and skip flag are computed from the full
`strokeLengthSteps` and are identical. -/
theorem C10_half_flag_frame (t : Tunables) (h1 h2 : Bool) (idx : ℕ) (hsp : 0 < t.speed) :
    (HalfnHalf.nextTarget t h1 idx).1.speed = (HalfnHalf.nextTarget t h2 idx).1.speed ∧
    (HalfnHalf.nextTarget t h1 idx).1.acceleration =
      (HalfnHalf.nextTarget t h2 idx).1.acceleration ∧
    (HalfnHalf.nextTarget t h1 idx).1.skip = (HalfnHalf.nextTarget t h2 idx).1.skip := by
  have h0 : ¬t.speed = 0 := by omega
  unfold HalfnHalf.nextTarget
  simp only [if_neg h0]
  by_cases hodd : idx % 2 = 1 <;> simp [hodd]

/-- Witness for C10 at a concrete input with positive speed. -/
theorem C10_half_flag_frame_witness :
    (HalfnHalf.nextTarget ⟨200, 1000, 100, 0, 1000, 10000⟩ true 2).1.speed =
        (HalfnHalf.nextTarget ⟨200, 1000, 100, 0, 1000, 10000⟩ false 2).1.speed ∧
      (HalfnHalf.nextTarget ⟨200, 1000, 100, 0, 1000, 10000⟩ true 2).1.acceleration =
        (HalfnHalf.nextTarget ⟨200, 1000, 100, 0, 1000, 10000⟩ false 2).1.acceleration ∧
      (HalfnHalf.nextTarget ⟨200, 1000, 100, 0, 1000, 10000⟩ true 2).1.skip =
        (HalfnHalf.nextTarget ⟨200, 1000, 100, 0, 1000, 10000⟩ false 2).1.skip :=
  C10_half_flag_frame ⟨200, 1000, 100, 0, 1000, 10000⟩ true false 2 (by decide)

/-! ## C8: the Deeper ramp length and cycling index -/

lemma tdiv_le_tdiv {a b c : ℤ} (ha : 0 ≤ a) (hab : a ≤ b) (hc : 0 < c) :
    Int.tdiv a c ≤ Int.tdiv b c := by
  rw [Int.tdiv_eq_ediv ha (le_of_lt hc), Int.tdiv_eq_ediv (le_trans ha hab) (le_of_lt hc)]
  exact Int.ediv_le_ediv hc hab

lemma tdiv_nonneg_of_nonneg {a c : ℤ} (ha : 0 ≤ a) (hc : 0 ≤ c) :
    0 ≤ Int.tdiv a c := by
  rw [Int.tdiv_eq_ediv ha hc]
  exact Int.ediv_nonneg ha hc

lemma ratToInt_le_of_le {s : ℚ} {n : ℤ} (h : s ≤ (n : ℚ)) : ratToInt s ≤ n := by
  have hm := ratToInt_mono h
  rwa [ratToInt_intCast] at hm

lemma le_ratToInt_of_le {s : ℚ} {n : ℤ} (h : (n : ℚ) ≤ s) : n ≤ ratToInt s := by
  have hm := ratToInt_mono h
  rwa [ratToInt_intCast] at hm

/-- For negative sensation at least -100, the Deeper ramp length is at most 11. -/
lemma ramp_neg_le {s : ℚ} (hneg : s < 0) (h1 : -100 ≤ s) :
    Deeper.countStrokesForRamp s ≤ 11 := by
  have hx1 : (-100 : ℤ) ≤ ratToInt s := le_ratToInt_of_le (by push_cast; linarith)
  unfold Deeper.countStrokesForRamp arduinoMap
  rw [if_pos hneg]
  have hx0 : ratToInt s ≤ 0 := ratToInt_le_of_le (by push_cast; linarith)
  have h := tdiv_le_tdiv (a := (ratToInt s - -100) * (11 - 2)) (b := 900) (c := 0 - -100)
    (by nlinarith) (by nlinarith) (by norm_num)
  have h900 : Int.tdiv 900 (0 - -100) = 9 := by decide
  omega

/-- For non-negative sensation, the Deeper ramp length is at least 11. -/
lemma ramp_pos_ge {s : ℚ} (hpos : ¬s < 0) : 11 ≤ Deeper.countStrokesForRamp s := by
  have hx0 : (0 : ℤ) ≤ ratToInt s := le_ratToInt_of_le (by push_cast; linarith [not_lt.mp hpos])
  unfold Deeper.countStrokesForRamp arduinoMap
  rw [if_neg hpos]
  have h := tdiv_nonneg_of_nonneg (a := (ratToInt s - 0) * (32 - 11)) (c := 100 - 0)
    (by nlinarith) (by norm_num)
  omega

/-- For sensation in `[-100, 100]`, the Deeper ramp length lies in `[2, 32]`. -/
lemma ramp_bounds {s : ℚ} (h1 : -100 ≤ s) (h2 : s ≤ 100) :
    2 ≤ Deeper.countStrokesForRamp s ∧ Deeper.countStrokesForRamp s ≤ 32 := by
  have hx1 : (-100 : ℤ) ≤ ratToInt s := le_ratToInt_of_le (by push_cast; linarith)
  have hx2 : ratToInt s ≤ 100 := ratToInt_le_of_le (by push_cast; linarith)
  unfold Deeper.countStrokesForRamp arduinoMap
  split_ifs with hneg
  · constructor
    · have h := tdiv_nonneg_of_nonneg (a := (ratToInt s - -100) * (11 - 2))
        (by nlinarith) (by norm_num : (0 : ℤ) ≤ 0 - -100)
      omega
    · have hx0 : ratToInt s ≤ 0 := ratToInt_le_of_le (by push_cast; linarith)
      have h := tdiv_le_tdiv (a := (ratToInt s - -100) * (11 - 2)) (b := 900) (c := 0 - -100)
        (by nlinarith) (by nlinarith) (by norm_num)
      have h900 : Int.tdiv 900 (0 - -100) = 9 := by decide
      omega
  · have hx0 : (0 : ℤ) ≤ ratToInt s :=
      le_ratToInt_of_le (by push_cast; linarith [not_lt.mp hneg])
    constructor
    · have h := tdiv_nonneg_of_nonneg (a := (ratToInt s - 0) * (32 - 11)) (c := 100 - 0)
        (by nlinarith) (by norm_num)
      omega
    · have h := tdiv_le_tdiv (a := (ratToInt s - 0) * (32 - 11)) (b := 2100) (c := 100 - 0)
        (by nlinarith) (by nlinarith) (by norm_num)
      have h2100 : Int.tdiv 2100 (100 - 0) = 21 := by decide
      omega

/-- The Deeper ramp length is monotone in the sensation on `[-100, 100]`. -/
lemma ramp_mono {s1 s2 : ℚ} (h1 : -100 ≤ s1) (h12 : s1 ≤ s2) (h2 : s2 ≤ 100) :
    Deeper.countStrokesForRamp s1 ≤ Deeper.countStrokesForRamp s2 := by
  by_cases hn1 : s1 < 0
  · by_cases hn2 : s2 < 0
    · have hx1 : (-100 : ℤ) ≤ ratToInt s1 := le_ratToInt_of_le (by push_cast; linarith)
      have hx12 : ratToInt s1 ≤ ratToInt s2 := ratToInt_mono h12
      unfold Deeper.countStrokesForRamp arduinoMap
      rw [if_pos hn1, if_pos hn2]
      have h := tdiv_le_tdiv (a := (ratToInt s1 - -100) * (11 - 2))
        (b := (ratToInt s2 - -100) * (11 - 2)) (c := 0 - -100)
        (by nlinarith) (by nlinarith) (by norm_num)
      omega
    · exact le_trans (ramp_neg_le hn1 h1) (ramp_pos_ge hn2)
  · have hn2 : ¬s2 < 0 := by simp only [not_lt] at *; linarith
    have hx12 : ratToInt s1 ≤ ratToInt s2 := ratToInt_mono h12
    have hx0 : (0 : ℤ) ≤ ratToInt s1 := le_ratToInt_of_le (by push_cast; linarith [not_lt.mp hn1])
    unfold Deeper.countStrokesForRamp arduinoMap
    rw [if_neg hn1, if_neg hn2]
    have h := tdiv_le_tdiv (a := (ratToInt s1 - 0) * (32 - 11))
      (b := (ratToInt s2 - 0) * (32 - 11)) (c := 100 - 0)
      (by nlinarith) (by nlinarith) (by norm_num)
    omega

/-- The Deeper cycling index is periodic with period equal to the ramp length
and takes values in `1..rampLength`. -/
lemma cycleIndex_facts (idx : ℕ) {r : ℤ} (hr : 1 ≤ r) :
    Deeper.cycleIndex (idx + 2 * r.toNat) r = Deeper.cycleIndex idx r ∧
    1 ≤ Deeper.cycleIndex idx r ∧ Deeper.cycleIndex idx r ≤ r := by
  have hrn : 0 < r.toNat := by omega
  unfold Deeper.cycleIndex
  refine ⟨?_, ?_, ?_⟩
  · have hdiv : (idx + 2 * r.toNat) / 2 = idx / 2 + r.toNat := by omega
    rw [hdiv, Nat.add_mod_right]
  · have : (0 : ℤ) ≤ ((idx / 2 % r.toNat : ℕ) : ℤ) := Int.natCast_nonneg _
    omega
  · have hmod : idx / 2 % r.toNat < r.toNat := Nat.mod_lt _ hrn
    have : ((idx / 2 % r.toNat : ℕ) : ℤ) < ((r.toNat : ℕ) : ℤ) := by exact_mod_cast hmod
    omega

/-- C8: for `Deeper`, the computed ramp length (`_countStrokesForRamp`) is a
non-decreasing function of the sensation over `[-100, 100]` and always lies
within `[2, 32]`; and for a fixed ramp length the sequence of cycle indices
`(index / 2) mod rampLength + 1` over successive stroke pairs is periodic
with period `rampLength`, taking values in `1..rampLength`. -/
theorem C8_ramp (s s1 s2 : ℚ) (idx : ℕ) (hs1 : -100 ≤ s) (hs2 : s ≤ 100)
    (h1 : -100 ≤ s1) (h12 : s1 ≤ s2) (h2 : s2 ≤ 100) :
    (2 ≤ Deeper.countStrokesForRamp s ∧ Deeper.countStrokesForRamp s ≤ 32) ∧
    Deeper.countStrokesForRamp s1 ≤ Deeper.countStrokesForRamp s2 ∧
    (Deeper.cycleIndex (idx + 2 * (Deeper.countStrokesForRamp s).toNat)
        (Deeper.countStrokesForRamp s) =
      Deeper.cycleIndex idx (Deeper.countStrokesForRamp s) ∧
     1 ≤ Deeper.cycleIndex idx (Deeper.countStrokesForRamp s) ∧
     Deeper.cycleIndex idx (Deeper.countStrokesForRamp s) ≤ Deeper.countStrokesForRamp s) := by
  have hb := ramp_bounds hs1 hs2
  exact ⟨hb, ramp_mono h1 h12 h2, cycleIndex_facts idx (by omega)⟩

/-- Witness for C8 at concrete inputs. -/
theorem C8_ramp_witness :
    (2 ≤ Deeper.countStrokesForRamp 0 ∧ Deeper.countStrokesForRamp 0 ≤ 32) ∧
    Deeper.countStrokesForRamp (-50) ≤ Deeper.countStrokesForRamp 50 ∧
    (Deeper.cycleIndex (5 + 2 * (Deeper.countStrokesForRamp 0).toNat)
        (Deeper.countStrokesForRamp 0) =
      Deeper.cycleIndex 5 (Deeper.countStrokesForRamp 0) ∧
     1 ≤ Deeper.cycleIndex 5 (Deeper.countStrokesForRamp 0) ∧
     Deeper.cycleIndex 5 (Deeper.countStrokesForRamp 0) ≤ Deeper.countStrokesForRamp 0) :=
  C8_ramp 0 (-50) 50 5 (by norm_num) (by norm_num) (by norm_num) (by norm_num) (by norm_num)

/-! ## C9: the Insist effective stroke length and direction flag -/

/-- C9: for `Insist`, the effective (reduced) stroke length
`int(strokeLengthSteps * (100 - |sensation|) / 100)` equals
`strokeLengthSteps` exactly at sensation 0, decreases (weakly) as the
sensation magnitude grows, and reaches 0 at magnitude 100; and the
direction flag `strokeInFront` is true exactly for positive sensation. -/
theorem C9_insist_stroke (stroke : ℤ) (s s1 s2 : ℚ) (hst : 0 ≤ stroke)
    (hmag : |s1| ≤ |s2|) :
    Insist.realStroke stroke 0 = stroke ∧
    (|s| = 100 → Insist.realStroke stroke s = 0) ∧
    Insist.realStroke stroke s2 ≤ Insist.realStroke stroke s1 ∧
    (0 < s → Insist.strokeInFront s = true) ∧
    (s ≤ 0 → Insist.strokeInFront s = false) := by
  refine ⟨?_, fun h100 => ?_, ?_, fun hpos => ?_, fun hnp => ?_⟩
  · unfold Insist.realStroke Insist.strokeFraction
    norm_num [ratToInt_intCast]
  · unfold Insist.realStroke Insist.strokeFraction
    rw [h100]
    norm_num [show ratToInt 0 = 0 from by decide]
  · unfold Insist.realStroke Insist.strokeFraction
    apply ratToInt_mono
    have hst' : (0 : ℚ) ≤ (stroke : ℚ) := by exact_mod_cast hst
    apply mul_le_mul_of_nonneg_left _ hst'
    linarith
  · simp only [Insist.strokeInFront, decide_eq_true_eq]
    exact hpos
  · simp only [Insist.strokeInFront, decide_eq_false_iff_not]
    exact not_lt.mpr hnp

/-- Witness for C9 at concrete inputs. -/
theorem C9_insist_stroke_witness :
    Insist.realStroke 1000 0 = 1000 ∧
    (|(50 : ℚ)| = 100 → Insist.realStroke 1000 50 = 0) ∧
    Insist.realStroke 1000 20 ≤ Insist.realStroke 1000 10 ∧
    (0 < (50 : ℚ) → Insist.strokeInFront 50 = true) ∧
    ((50 : ℚ) ≤ 0 → Insist.strokeInFront 50 = false) :=
  C9_insist_stroke 1000 50 10 20 (by norm_num) (by norm_num)

/-! ## C7: the stroke-time divisor is never zero -/

/-- C7: in `_calTimeOfStroke` (and the factor-of-2 overrides of
`TeasingPounding` and `HalfnHalf`, which divide by the same expression), the
divisor `constrain(_speed, 1, _maxSpeed)` is at least 1 — hence nonzero — for
every value of `speedParameter`, including 0 and negative values, whenever a
speed limit of at least 1 is configured. -/
theorem C7_divisor_at_least_one (t : Tunables) (h : 1 ≤ t.maxSpeed) :
    1 ≤ Pattern.strokeDivisor t ∧ (Pattern.strokeDivisor t : ℚ) ≠ 0 := by
  have h1 : 1 ≤ Pattern.strokeDivisor t := (constrainI_mem t.speed h).1
  exact ⟨h1, Int.cast_ne_zero.mpr (by omega)⟩

/-! ## C1: limit invariants of every emitted command -/

/-- C1 fails as stated: during a `StopNGo` pause the returned command repeats
the previous `_nextMove.stroke` with `skip = true`, and if the depth limit is
lowered during the pause the stale stroke exceeds it.  Concretely: with
stroke 200, depth 1000, speed 100, a stroke at index 0 and one at index 1
(which starts the inter-series pause), then `setDepth 500` and a poll during
the pause returns a command with stroke 800 > 500 = depthLimitSteps, although
the state is valid (non-negative depth, configured limits). -/
theorem C1_counterexample :
    (let t : Tunables := ⟨200, 1000, 100, 0, 1000, 10000⟩
     let st := (StopNGo.setSensation t StopNGo.initialState 0).2
     let s1 := (StopNGo.nextTarget t st 10000 0).2
     let s2 := (StopNGo.nextTarget t s1 10100 1).2
     let t2 := Pattern.setDepth t 500
     let cmd := (StopNGo.nextTarget t2 s2 10200 2).1
     0 ≤ t2.depth ∧ cmd.stroke = 800 ∧ cmd.skip = true ∧ t2.depth = 500 ∧
       ¬cmd.stroke ≤ t2.depth) := by
  decide

/-- C1 (amended): for every pattern variant and every valid input state
(non-negative `depthLimitSteps`, configured `maxVelocity` and
`maxAcceleration`), every `motionParameter` returned by `nextTarget(index)`
satisfies `0 ≤ speed ≤ maxVelocity` and `0 ≤ acceleration ≤ maxAcceleration`,
for every index, every setting of the tunables and every internal state; and
every command returned with `skip = false` (every freshly computed target,
i.e. everything except the repeated command of a `StopNGo` pause) also
satisfies `0 ≤ stroke ≤ depthLimitSteps`. -/
theorem C1_bounds (t : Tunables) (x : ℚ) (half : Bool) (st : StopNGoState)
    (now : ℤ) (idx : ℕ)
    (hd : 0 ≤ t.depth) (hs : 0 ≤ t.maxSpeed) (ha : 0 ≤ t.maxAcceleration) :
    cmdWithinLimits t (SimplePenetration.nextTarget t idx) ∧
    cmdWithinLimits t (TeasingPounding.nextTarget t idx) ∧
    cmdWithinLimits t (RoboStroke.nextTarget t x idx).1 ∧
    cmdWithinLimits t (HalfnHalf.nextTarget t half idx).1 ∧
    cmdWithinLimits t (Deeper.nextTarget t idx) ∧
    cmdWithinLimits t (StopNGo.nextTarget t st now idx).1 ∧
    cmdWithinLimits t (Insist.nextTarget t idx) :=
  ⟨SimplePenetration_within idx hd hs ha, TeasingPounding_within idx hd hs ha,
   RoboStroke_within x idx hd hs ha, HalfnHalf_within half idx hd hs ha,
   Deeper_within idx hd hs ha, StopNGo_within st now idx hd hs ha,
   Insist_within idx hd hs ha⟩

/-- Witness for C1 (amended) at a concrete valid input. -/
theorem C1_bounds_witness :
    cmdWithinLimits ⟨200, 1000, 100, 0, 1000, 10000⟩
      (SimplePenetration.nextTarget ⟨200, 1000, 100, 0, 1000, 10000⟩ 1) ∧
    cmdWithinLimits ⟨200, 1000, 100, 0, 1000, 10000⟩
      (TeasingPounding.nextTarget ⟨200, 1000, 100, 0, 1000, 10000⟩ 1) ∧
    cmdWithinLimits ⟨200, 1000, 100, 0, 1000, 10000⟩
      (RoboStroke.nextTarget ⟨200, 1000, 100, 0, 1000, 10000⟩ (1 / 3) 1).1 ∧
    cmdWithinLimits ⟨200, 1000, 100, 0, 1000, 10000⟩
      (HalfnHalf.nextTarget ⟨200, 1000, 100, 0, 1000, 10000⟩ true 1).1 ∧
    cmdWithinLimits ⟨200, 1000, 100, 0, 1000, 10000⟩
      (Deeper.nextTarget ⟨200, 1000, 100, 0, 1000, 10000⟩ 1) ∧
    cmdWithinLimits ⟨200, 1000, 100, 0, 1000, 10000⟩
      (StopNGo.nextTarget ⟨200, 1000, 100, 0, 1000, 10000⟩ StopNGo.initialState 0 1).1 ∧
    cmdWithinLimits ⟨200, 1000, 100, 0, 1000, 10000⟩
      (Insist.nextTarget ⟨200, 1000, 100, 0, 1000, 10000⟩ 1) :=
  C1_bounds ⟨200, 1000, 100, 0, 1000, 10000⟩ (1 / 3) true StopNGo.initialState 0 1
    (by decide) (by decide) (by decide)

/-- Witness for C7 at a concrete input (`speedParameter = 0`). -/
theorem C7_divisor_at_least_one_witness :
    1 ≤ Pattern.strokeDivisor ⟨200, 1000, 0, 0, 1000, 10000⟩ ∧
      (Pattern.strokeDivisor ⟨200, 1000, 0, 0, 1000, 10000⟩ : ℚ) ≠ 0 :=
  C7_divisor_at_least_one ⟨200, 1000, 0, 0, 1000, 10000⟩ (by decide)
